import Mathlib

/-!
Shallow embedding of the WQI water-quality service (Backend/backend.py and
Frontend/App.py) and proofs about it.

Modelling conventions:
* calendar dates are day numbers in `ℤ` (one unit = one day);
* Python floats are modelled by `ℚ`; a float NaN arising from `np.mean` of an
  empty sequence is modelled by `Option.none`;
* the unseeded numpy random draws are passed in explicitly as streams
  `ℕ → ℚ` (one value per day), so `generate_data` is a function of the draws;
* a raised Python exception is modelled by `Option.none` / `Except.error`.
-/

namespace WQI

/-- One RGB pixel of the rendered artifact (matplotlib channel order:
channel 0 = red, channel 1 = green, channel 2 = blue). -/
structure Color where
  r : ℚ
  g : ℚ
  b : ℚ
deriving DecidableEq, Repr

/-- One row of the `historical_data` frame built in `generate_data`
(backend.py lines 25-31): a date plus the four indicator columns. -/
structure Observation where
  date : ℤ
  pH : ℚ
  DO : ℚ
  rainfall : ℚ
  fecal_coliform : ℚ
deriving DecidableEq, Repr

/-- One row of the `forecast_data` frame (backend.py lines 37-40).  The
value is `Option ℚ` because the trend, hence the forecast, is NaN when the
history has no consecutive differences. -/
structure ForecastPoint where
  date : ℤ
  forecast_fecal : Option ℚ
deriving DecidableEq, Repr

/-- Mean of a list as `np.mean` computes it: NaN (modelled `none`) on an empty list, the
arithmetic mean otherwise. -/
def npMean (xs : List ℚ) : Option ℚ :=
  if xs.isEmpty then none else some (xs.sum / (xs.length : ℚ))

/-- Consecutive differences, `series.diff().dropna()`: the list of consecutive differences
`xs[i+1] - xs[i]` (backend.py line 34). -/
def seriesDiff (xs : List ℚ) : List ℚ :=
  List.zipWith (fun a b => b - a) xs xs.tail

/-- Clamping as numpy's `x.clip(lo, hi)` computes it. -/
def npClip (x lo hi : ℚ) : ℚ :=
  min hi (max lo x)

/-- The inlined Trend Forecaster, backend.py lines 33-40.
`history.getLast?` is the `iloc[-1]` access: on an empty series it raises
(`none` here).  `trend` is `np.mean` of the consecutive differences and is
NaN (`none`) when there are no differences; the three forecast values then
inherit the NaN. -/
def forecastFecal (history : List Observation) : Option (List ForecastPoint) :=
  match history.getLast? with
  | none => none
  | some lastObs =>
      let trend := npMean (seriesDiff (history.map Observation.fecal_coliform))
      some ((List.range 3).map (fun i =>
        { date := lastObs.date + (i : ℤ) + 1,
          forecast_fecal :=
            trend.map (fun t => lastObs.fecal_coliform + t * ((i : ℚ) + 1)) }))

/-- The spec's trend: the arithmetic mean of the consecutive day-over-day
differences of a series. -/
def meanDiff (xs : List ℚ) : ℚ :=
  (seriesDiff xs).sum / ((seriesDiff xs).length : ℚ)

/-- The three severity bands of the spec's SeverityBand enumeration,
naming the three branches of backend.py lines 44-50. -/
inductive SeverityBand where
  | LOW
  | MEDIUM
  | HIGH
deriving DecidableEq, Repr

/-- The classification branch taken by backend.py lines 44-50 for a latest
fecal value. -/
def classify (v : ℚ) : SeverityBand :=
  if v < 400 then .LOW
  else if v < 800 then .MEDIUM
  else .HIGH

/-- The uniform pixel color written into the 50x50 image by backend.py
lines 43-50: the array starts as zeros and whole channels are set to 1.0
per branch. -/
def severityColor (v : ℚ) : Color :=
  if v < 400 then { r := 0, g := 1, b := 0 }
  else if v < 800 then { r := 1, g := 1, b := 0 }
  else { r := 1, g := 0, b := 0 }

/-- The full 50x50 raster: every pixel carries the branch's color, since
backend.py sets entire channels uniformly. -/
def makeImage (v : ℚ) : Fin 50 → Fin 50 → Color :=
  fun _ _ => severityColor v

/-- One generated observation (backend.py lines 19-23) for day index `i`
out of 30: the date is `today - 29 + i`, and `fecal_coliform` is the
log-normal draw clipped to [100, 1000] plus `0.5 * rainfall`. -/
def genObservation (today : ℤ) (pH DO rain fcDraw : ℕ → ℚ) (i : ℕ) :
    Observation :=
  { date := today - 29 + (i : ℤ)
    pH := pH i
    DO := DO i
    rainfall := rain i
    fecal_coliform := npClip (fcDraw i) 100 1000 + rain i * (1 / 2) }

/-- The Series Generator: `pd.date_range(end=today, periods=30)` paired
with the four random columns (backend.py lines 19-31). -/
def genObservations (today : ℤ) (pH DO rain fcDraw : ℕ → ℚ) :
    List Observation :=
  (List.range 30).map (genObservation today pH DO rain fcDraw)

/-- The success payload assembled by `generate_data`
(backend.py lines 56-61), before JSON/base64 encoding. -/
structure Payload where
  historical_data : List Observation
  forecast_data : List ForecastPoint
  satellite_image : Fin 50 → Fin 50 → Color
  latest_fecal : ℚ

/-- The `iloc[-1]` access on the generated `fecal_coliform` column
(backend.py lines 33 and 42); the series provably has 30 rows, so the
access cannot fail. -/
def lastFecal (today : ℤ) (pH DO rain fcDraw : ℕ → ℚ) : ℚ :=
  ((genObservations today pH DO rain fcDraw).getLast
    (by simp [genObservations])).fecal_coliform

/-- The Data Service body `generate_data` (backend.py lines 17-61) on explicit random draws.
The forecast always exists here because the history has 30 rows; `.getD []`
only totalises the impossible empty-history branch. -/
def generate_data (today : ℤ) (pH DO rain fcDraw : ℕ → ℚ) : Payload :=
  { historical_data := genObservations today pH DO rain fcDraw
    forecast_data :=
      (forecastFecal (genObservations today pH DO rain fcDraw)).getD []
    satellite_image := makeImage (lastFecal today pH DO rain fcDraw)
    latest_fecal := lastFecal today pH DO rain fcDraw }

/-- A response of the `/data` endpoint: either the JSON payload (status
200) or the error envelope with its status code. -/
inductive ServiceResponse where
  | ok (payload : Payload)
  | err (error_message : String) (status_code : ℕ)

/-- The `/data` endpoint handler (backend.py lines 66-76).  The outcome of
`generate_data` — which may raise — is passed in as an `Except`; the
handler's `try/except` turns any exception into the `{"error": ...}`
envelope with status 500. -/
def get_water_quality_data (result : Except String Payload) :
    ServiceResponse :=
  match result with
  | .ok data => .ok data
  | .error e => .err ("Internal Server Error: " ++ e) 500

/-- The polyline/marker color picked by the frontend map
(App.py line 23). -/
def riverColor (fecal_value : ℚ) : String :=
  if fecal_value < 400 then "green"
  else if fecal_value < 800 then "yellow"
  else "red"

/-- The warning alert string of App.py line 36. -/
def warningMsg (threshold : ℚ) : String :=
  "Warning: Forecasted fecal coliform above " ++ toString threshold
    ++ " CFU/100mL."

/-- The critical alert string of App.py line 38. -/
def criticalMsg : String :=
  "Critical: High pollution risk detected. Take action."

/-- The Alert Evaluator `check_alerts` (App.py lines 33-39): append the warning alert when any
forecast value strictly exceeds the user threshold, then the critical alert
when any strictly exceeds 800. -/
def check_alerts (forecast_fecal : List ℚ) (threshold : ℚ) : List String :=
  (if forecast_fecal.any (fun x => threshold < x) then [warningMsg threshold]
   else [])
    ++ (if forecast_fecal.any (fun x => 800 < x) then [criticalMsg] else [])

/-- A concrete two-observation history used to exercise the forecaster. -/
def sampleHistory : List Observation :=
  [ { date := 0, pH := 7, DO := 8, rainfall := 0, fecal_coliform := 100 },
    { date := 1, pH := 7, DO := 8, rainfall := 0, fecal_coliform := 110 } ]

/-- The final observation of `sampleHistory`. -/
def sampleLast : Observation :=
  { date := 1, pH := 7, DO := 8, rainfall := 0, fecal_coliform := 110 }

/-- C1: on any history of length at least 2 the forecaster yields exactly 3
points, dated on the 3 consecutive days after the last historical date,
with value `last + trend * i` for i = 1, 2, 3 where `trend` is the mean of
the `length - 1` consecutive differences; linear in the horizon and
unclamped. -/
theorem forecaster_three_linear_points (history : List Observation)
    (lastObs : Observation) (hlast : history.getLast? = some lastObs)
    (hlen : 2 ≤ history.length) :
    (seriesDiff (history.map Observation.fecal_coliform)).length
        = history.length - 1 ∧
    forecastFecal history = some
      [ { date := lastObs.date + 1,
          forecast_fecal := some (lastObs.fecal_coliform
            + meanDiff (history.map Observation.fecal_coliform) * 1) },
        { date := lastObs.date + 2,
          forecast_fecal := some (lastObs.fecal_coliform
            + meanDiff (history.map Observation.fecal_coliform) * 2) },
        { date := lastObs.date + 3,
          forecast_fecal := some (lastObs.fecal_coliform
            + meanDiff (history.map Observation.fecal_coliform) * 3) } ] := by
  have hdlen : (seriesDiff (history.map Observation.fecal_coliform)).length
      = history.length - 1 := by
    simp [seriesDiff]
  refine ⟨hdlen, ?_⟩
  have hnil : seriesDiff (history.map Observation.fecal_coliform) ≠ [] := by
    rw [← List.length_pos]
    omega
  have hne : (seriesDiff (history.map Observation.fecal_coliform)).isEmpty
      ≠ true := by
    simpa [List.isEmpty_iff] using hnil
  unfold forecastFecal
  rw [hlast]
  have h3 : List.range 3 = [0, 1, 2] := rfl
  simp only [h3, List.map_cons, List.map_nil, npMean, if_neg hne, Option.map_some,
    meanDiff, hdlen]
  norm_num
  omega

/-- Witness for C1 at `sampleHistory`. -/
theorem forecaster_three_linear_points_witness :
    sampleHistory.getLast? = some sampleLast ∧
    2 ≤ sampleHistory.length ∧
    ((seriesDiff (sampleHistory.map Observation.fecal_coliform)).length
        = sampleHistory.length - 1 ∧
     forecastFecal sampleHistory = some
       [ { date := sampleLast.date + 1,
           forecast_fecal := some (sampleLast.fecal_coliform
             + meanDiff (sampleHistory.map Observation.fecal_coliform) * 1) },
         { date := sampleLast.date + 2,
           forecast_fecal := some (sampleLast.fecal_coliform
             + meanDiff (sampleHistory.map Observation.fecal_coliform) * 2) },
         { date := sampleLast.date + 3,
           forecast_fecal := some (sampleLast.fecal_coliform
             + meanDiff (sampleHistory.map Observation.fecal_coliform) * 3) } ]) :=
  ⟨rfl, by norm_num [sampleHistory],
    forecaster_three_linear_points sampleHistory sampleLast rfl
      (by norm_num [sampleHistory])⟩

/-- C2: the classifier's three bands are characterized by half-open-below
boundaries, every pixel of the artifact carries the band's color (green,
yellow, red), and the boundaries 400 and 800 classify upward. -/
theorem classifier_bands_partition (v : ℚ) :
    (classify v = SeverityBand.LOW ↔ v < 400) ∧
    (classify v = SeverityBand.MEDIUM ↔ 400 ≤ v ∧ v < 800) ∧
    (classify v = SeverityBand.HIGH ↔ 800 ≤ v) ∧
    (∀ i j : Fin 50, makeImage v i j =
      (match classify v with
       | SeverityBand.LOW => { r := 0, g := 1, b := 0 }
       | SeverityBand.MEDIUM => { r := 1, g := 1, b := 0 }
       | SeverityBand.HIGH => { r := 1, g := 0, b := 0 })) ∧
    classify (400 : ℚ) = SeverityBand.MEDIUM ∧
    classify (800 : ℚ) = SeverityBand.HIGH := by
  rcases lt_or_le v 400 with h1 | h1
  · have hc : classify v = SeverityBand.LOW := by
      unfold classify
      rw [if_pos h1]
    have hcol : severityColor v = { r := 0, g := 1, b := 0 } := by
      unfold severityColor
      rw [if_pos h1]
    refine ⟨iff_of_true hc h1, ?_, ?_, ?_, by decide, by decide⟩
    · refine iff_of_false ?_ ?_
      · rw [hc]
        exact fun hEq => SeverityBand.noConfusion hEq
      · rintro ⟨ha, -⟩
        linarith
    · refine iff_of_false ?_ ?_
      · rw [hc]
        exact fun hEq => SeverityBand.noConfusion hEq
      · intro ha
        linarith
    · intro i j
      rw [hc]
      simpa [makeImage] using hcol
  rcases lt_or_le v 800 with h2 | h2
  · have hc : classify v = SeverityBand.MEDIUM := by
      unfold classify
      rw [if_neg (not_lt.mpr h1), if_pos h2]
    have hcol : severityColor v = { r := 1, g := 1, b := 0 } := by
      unfold severityColor
      rw [if_neg (not_lt.mpr h1), if_pos h2]
    refine ⟨?_, iff_of_true hc ⟨h1, h2⟩, ?_, ?_, by decide, by decide⟩
    · refine iff_of_false ?_ (not_lt.mpr h1)
      rw [hc]
      exact fun hEq => SeverityBand.noConfusion hEq
    · refine iff_of_false ?_ ?_
      · rw [hc]
        exact fun hEq => SeverityBand.noConfusion hEq
      · intro ha
        linarith
    · intro i j
      rw [hc]
      simpa [makeImage] using hcol
  · have hc : classify v = SeverityBand.HIGH := by
      unfold classify
      rw [if_neg (not_lt.mpr (by linarith)), if_neg (not_lt.mpr h2)]
    have hcol : severityColor v = { r := 1, g := 0, b := 0 } := by
      unfold severityColor
      rw [if_neg (not_lt.mpr (by linarith)), if_neg (not_lt.mpr h2)]
    refine ⟨?_, ?_, iff_of_true hc h2, ?_, by decide, by decide⟩
    · refine iff_of_false ?_ ?_
      · rw [hc]
        exact fun hEq => SeverityBand.noConfusion hEq
      · intro ha
        linarith
    · refine iff_of_false ?_ ?_
      · rw [hc]
        exact fun hEq => SeverityBand.noConfusion hEq
      · rintro ⟨-, hb⟩
        linarith
    · intro i j
      rw [hc]
      simpa [makeImage] using hcol

/-- C3: each generated `fecal_coliform` is the draw clamped to [100, 1000]
and then increased by half the same day's rainfall; with non-negative
rainfall every observation is at least 100, and suitable rainfall pushes an
observation above 1000. -/
theorem fecal_clamp_then_rainfall (today : ℤ) (pH DO rain fcDraw : ℕ → ℚ)
    (hrain : ∀ i, 0 ≤ rain i) :
    ((generate_data today pH DO rain fcDraw).historical_data.map
        Observation.fecal_coliform
      = (List.range 30).map
          (fun i => min 1000 (max 100 (fcDraw i)) + rain i * (1 / 2))) ∧
    (∀ obs ∈ (generate_data today pH DO rain fcDraw).historical_data,
      100 ≤ obs.fecal_coliform) ∧
    (∃ rain2 fcDraw2 : ℕ → ℚ, (∀ i, 0 ≤ rain2 i) ∧
      ∃ obs ∈ (generate_data today pH DO rain2 fcDraw2).historical_data,
        1000 < obs.fecal_coliform) := by
  refine ⟨?_, ?_, ?_⟩
  · simp [generate_data, genObservations, genObservation, npClip,
      List.map_map, Function.comp]
  · intro obs hobs
    simp only [generate_data, genObservations, List.mem_map,
      List.mem_range] at hobs
    obtain ⟨i, -, rfl⟩ := hobs
    have hmin : (100 : ℚ) ≤ min 1000 (max 100 (fcDraw i)) :=
      le_min (by norm_num) (le_max_left _ _)
    have := hrain i
    simp only [genObservation, npClip]
    linarith
  · refine ⟨fun _ => 2000, fun _ => 0, fun i => by norm_num,
      genObservation today pH DO (fun _ => 2000) (fun _ => 0) 0, ?_, ?_⟩
    · simp only [generate_data, genObservations, List.mem_map,
        List.mem_range]
      exact ⟨0, by norm_num, rfl⟩
    · norm_num [genObservation, npClip]

/-- Witness for C3 with all draws zero. -/
theorem fecal_clamp_then_rainfall_witness :
    (∀ i : ℕ, (0 : ℚ) ≤ (fun _ : ℕ => (0 : ℚ)) i) ∧
    (((generate_data 0 (fun _ => 7) (fun _ => 8) (fun _ => 0)
          (fun _ => 0)).historical_data.map Observation.fecal_coliform
      = (List.range 30).map
          (fun _ => min 1000 (max 100 ((0 : ℚ))) + 0 * (1 / 2))) ∧
     (∀ obs ∈ (generate_data 0 (fun _ => 7) (fun _ => 8) (fun _ => 0)
          (fun _ => 0)).historical_data,
       100 ≤ obs.fecal_coliform) ∧
     (∃ rain2 fcDraw2 : ℕ → ℚ, (∀ i, 0 ≤ rain2 i) ∧
       ∃ obs ∈ (generate_data 0 (fun _ => 7) (fun _ => 8) rain2
            fcDraw2).historical_data,
         1000 < obs.fecal_coliform)) :=
  ⟨fun _ => le_refl 0,
    fecal_clamp_then_rainfall 0 (fun _ => 7) (fun _ => 8) (fun _ => 0)
      (fun _ => 0) (fun _ => le_refl 0)⟩

/-- C4 counterexample: on a single-observation history the forecaster does
not fail; it returns three forecast points, whose values carry the NaN of
the mean of zero differences. -/
theorem single_point_history_returns_forecast :
    forecastFecal
        [{ date := 0, pH := 7, DO := 8, rainfall := 0,
           fecal_coliform := 150 }] ≠ none ∧
    forecastFecal
        [{ date := 0, pH := 7, DO := 8, rainfall := 0,
           fecal_coliform := 150 }]
      = some [ { date := 1, forecast_fecal := none },
               { date := 2, forecast_fecal := none },
               { date := 3, forecast_fecal := none } ] := by
  constructor
  · decide
  · decide

/-- C4 (amended): the code raises no InsufficientHistory error.  On an
empty history the forecaster fails on the `iloc[-1]` access, and on a
one-observation history it returns 3 dated forecast points whose values
are NaN (the mean of zero differences), rather than failing. -/
theorem forecaster_under_two_observations (o : Observation) :
    forecastFecal [] = none ∧
    forecastFecal [o] = some
      [ { date := o.date + 1, forecast_fecal := none },
        { date := o.date + 2, forecast_fecal := none },
        { date := o.date + 3, forecast_fecal := none } ] := by
  refine ⟨rfl, ?_⟩
  have h : ([o] : List Observation).getLast? = some o := rfl
  unfold forecastFecal
  rw [h]
  have h3 : List.range 3 = [0, 1, 2] := rfl
  simp only [h3, List.map_cons, List.map_nil, npMean, seriesDiff]
  norm_num
  omega

/-- C5: the `/data` handler returns the full payload when generation
succeeds and the `Internal Server Error` envelope with status 500 when any
internal step fails; every outcome is one of the two. -/
theorem service_error_envelope (p : Payload) (e : String) :
    get_water_quality_data (Except.ok p) = ServiceResponse.ok p ∧
    get_water_quality_data (Except.error e)
      = ServiceResponse.err ("Internal Server Error: " ++ e) 500 ∧
    ∀ r : Except String Payload,
      (∃ q, r = Except.ok q ∧
        get_water_quality_data r = ServiceResponse.ok q) ∨
      (∃ m, r = Except.error m ∧
        get_water_quality_data r
          = ServiceResponse.err ("Internal Server Error: " ++ m) 500) := by
  refine ⟨rfl, rfl, ?_⟩
  intro r
  cases r with
  | ok q => exact Or.inl ⟨q, rfl, rfl⟩
  | error m => exact Or.inr ⟨m, rfl, rfl⟩

/-- C6: `check_alerts` returns the warning alert exactly when some forecast
value strictly exceeds the threshold, followed by the critical alert
exactly when some value strictly exceeds 800; on [390, 410, 790] with
threshold 400 it yields one warning only, and on [900, 100, 100] the
warning then the critical alert. -/
theorem check_alerts_characterization (forecast : List ℚ) (threshold : ℚ) :
    check_alerts forecast threshold
      = ((if ∃ x ∈ forecast, threshold < x then [warningMsg threshold]
          else [])
          ++ (if ∃ x ∈ forecast, (800 : ℚ) < x then [criticalMsg]
              else [])) ∧
    check_alerts [390, 410, 790] 400 = [warningMsg 400] ∧
    check_alerts [900, 100, 100] 400 = [warningMsg 400, criticalMsg] := by
  refine ⟨?_, ?_, ?_⟩
  · simp [check_alerts, List.any_eq_true]
  · norm_num [check_alerts]
  · norm_num [check_alerts]

/-- C7: every generated history has exactly 30 observations, dates
increasing by exactly one day, and its final observation dated today. -/
theorem generated_series_thirty_consecutive_days (today : ℤ)
    (pH DO rain fcDraw : ℕ → ℚ) :
    (generate_data today pH DO rain fcDraw).historical_data.length = 30 ∧
    List.Chain' (fun a b => b.date = a.date + 1)
      (generate_data today pH DO rain fcDraw).historical_data ∧
    ∃ lastObs,
      (generate_data today pH DO rain fcDraw).historical_data.getLast?
          = some lastObs ∧
      lastObs.date = today := by
  refine ⟨rfl, ?_, ?_⟩
  · rw [List.chain'_iff_get]
    intro i h
    simp only [generate_data, genObservations, List.get_eq_getElem,
      List.getElem_map, List.getElem_range, genObservation]
    push_cast
    ring
  · refine ⟨genObservation today pH DO rain fcDraw 29, rfl, ?_⟩
    simp only [genObservation]
    norm_num

/-- C8: the payload's `latest_fecal` equals the final observation's
`fecal_coliform`, and the artifact is rendered from that same value. -/
theorem latest_fecal_is_final_observation (today : ℤ)
    (pH DO rain fcDraw : ℕ → ℚ) :
    ((generate_data today pH DO rain fcDraw).historical_data.map
        Observation.fecal_coliform).getLast?
      = some (generate_data today pH DO rain fcDraw).latest_fecal ∧
    (generate_data today pH DO rain fcDraw).satellite_image
      = makeImage (generate_data today pH DO rain fcDraw).latest_fecal := by
  exact ⟨rfl, rfl⟩

/-- C9: the backend artifact color and the frontend map color pick the same
band for every value: green below 400, yellow from 400 up to 800, red from
800 on. -/
theorem frontend_backend_band_agreement (v : ℚ) :
    (riverColor v = "green"
        ↔ severityColor v = { r := 0, g := 1, b := 0 }) ∧
    (riverColor v = "yellow"
        ↔ severityColor v = { r := 1, g := 1, b := 0 }) ∧
    (riverColor v = "red"
        ↔ severityColor v = { r := 1, g := 0, b := 0 }) ∧
    (v < 400 → riverColor v = "green") ∧
    (400 ≤ v → v < 800 → riverColor v = "yellow") ∧
    (800 ≤ v → riverColor v = "red") := by
  rcases lt_or_le v 400 with h1 | h1
  · have hr : riverColor v = "green" := by
      unfold riverColor
      rw [if_pos h1]
    have hcol : severityColor v = { r := 0, g := 1, b := 0 } := by
      unfold severityColor
      rw [if_pos h1]
    refine ⟨by rw [hr, hcol]; decide, by rw [hr, hcol]; decide,
      by rw [hr, hcol]; decide, fun _ => hr, ?_, ?_⟩
    · intro ha hb
      linarith
    · intro ha
      linarith
  rcases lt_or_le v 800 with h2 | h2
  · have hr : riverColor v = "yellow" := by
      unfold riverColor
      rw [if_neg (not_lt.mpr h1), if_pos h2]
    have hcol : severityColor v = { r := 1, g := 1, b := 0 } := by
      unfold severityColor
      rw [if_neg (not_lt.mpr h1), if_pos h2]
    refine ⟨by rw [hr, hcol]; decide, by rw [hr, hcol]; decide,
      by rw [hr, hcol]; decide, ?_, fun _ _ => hr, ?_⟩
    · intro ha
      linarith
    · intro ha
      linarith
  · have hr : riverColor v = "red" := by
      unfold riverColor
      rw [if_neg (not_lt.mpr (by linarith)), if_neg (not_lt.mpr h2)]
    have hcol : severityColor v = { r := 1, g := 0, b := 0 } := by
      unfold severityColor
      rw [if_neg (not_lt.mpr (by linarith)), if_neg (not_lt.mpr h2)]
    refine ⟨by rw [hr, hcol]; decide, by rw [hr, hcol]; decide,
      by rw [hr, hcol]; decide, ?_, ?_, fun _ => hr⟩
    · intro ha
      linarith
    · intro ha hb
      linarith

/-- C10: whenever some forecast value exceeds 800 (so the critical alert
fires) and the threshold is at most 800, the warning alert fires too: the
alert list is exactly [warning, critical] and is never the critical alert
alone. -/
theorem critical_alert_implies_warning (forecast : List ℚ) (threshold : ℚ)
    (hth : threshold ≤ 800) (hcrit : ∃ x ∈ forecast, (800 : ℚ) < x) :
    check_alerts forecast threshold
        = [warningMsg threshold, criticalMsg] ∧
    criticalMsg ∈ check_alerts forecast threshold ∧
    warningMsg threshold ∈ check_alerts forecast threshold ∧
    check_alerts forecast threshold ≠ [criticalMsg] := by
  obtain ⟨x, hx, h800⟩ := hcrit
  have hwarn : forecast.any (fun y => decide (threshold < y)) = true :=
    List.any_eq_true.mpr ⟨x, hx, by simp; linarith⟩
  have hcritb : forecast.any (fun y => decide ((800 : ℚ) < y)) = true :=
    List.any_eq_true.mpr ⟨x, hx, by simp [h800]⟩
  have heq : check_alerts forecast threshold
      = [warningMsg threshold, criticalMsg] := by
    unfold check_alerts
    rw [if_pos hwarn, if_pos hcritb]
    rfl
  refine ⟨heq, by rw [heq]; simp, by rw [heq]; simp, by rw [heq]; simp⟩

/-- Witness for C10 on the forecast [900] with threshold 400. -/
theorem critical_alert_implies_warning_witness :
    ((400 : ℚ) ≤ 800) ∧
    (∃ x ∈ ([900] : List ℚ), (800 : ℚ) < x) ∧
    (check_alerts [900] 400 = [warningMsg 400, criticalMsg] ∧
     criticalMsg ∈ check_alerts [900] 400 ∧
     warningMsg 400 ∈ check_alerts [900] 400 ∧
     check_alerts [900] 400 ≠ [criticalMsg]) :=
  ⟨by norm_num, ⟨900, by norm_num⟩,
    critical_alert_implies_warning [900] 400 (by norm_num)
      ⟨900, by norm_num, by norm_num⟩⟩

end WQI
